import Mathlib

/-!
# Memset DNS provider (lego, `providers/dns/memset`)

A shallow embedding of `memset.go` and `client.go`.

* Go strings are Lean strings, Go `error` values are their messages
  (`err.Error()`), a nil error is `none`.
* The record-ID table (`map[string]string`) is an association list with
  first-match lookup, in-place update and append on a fresh key.
* The outside world (zone discovery, the HTTP server, the key-authorisation
  digest) is an explicit `World` value; every `http.PostForm` call is appended
  to `World.log`, and the answer of the server may depend on that log.
* `encoding/json` is modelled at the level of JSON values: `Marshal` yields a
  JSON object (field order and `omitempty` as in the struct tags), `Unmarshal`
  consumes a `Content`, which is either ill-formed text or a JSON value.
-/

namespace Memset

/-! ## Go strings -/

/-- Go `strings.HasSuffix`. -/
def hasSuffix (s suffix : String) : Bool :=
  suffix.data.isSuffixOf s.data

/-- Go `strings.TrimSuffix`: `s` without the trailing `suffix`, or `s` itself. -/
def TrimSuffix (s suffix : String) : String :=
  if hasSuffix s suffix then ⟨s.data.take (s.data.length - suffix.data.length)⟩ else s

/-- Modelled from the spec: `dns01.ToFqdn` is not among the sources; a fully
qualified name is "always trailing-dot-terminated", so the dot is added when
it is missing (the empty name is left alone). -/
def ToFqdn (name : String) : String :=
  match name.data.getLast? with
  | none => name
  | some c => if c = '.' then name else name ++ "."

/-- Modelled from the spec: `dns01.UnFqdn` is not among the sources; it turns
the trailing-dot form back into the plain name (`example.com.` to
`example.com`) by dropping one final dot when there is one. -/
def UnFqdn (name : String) : String :=
  match name.data.getLast? with
  | none => name
  | some c => if c = '.' then ⟨name.data.dropLast⟩ else name

/-! ## Go maps of strings -/

/-- The type `map[string]string`. -/
abbrev StringMap := List (String × String)

/-- Map read `v, ok := m[k]`. -/
def mapGet : StringMap → String → Option String
  | [], _ => none
  | (k', v') :: m, k => if k' = k then some v' else mapGet m k

/-- Map write `m[k] = v`. -/
def mapSet : StringMap → String → String → StringMap
  | [], k, v => [(k, v)]
  | (k', v') :: m, k, v => if k' = k then (k', v) :: m else (k', v') :: mapSet m k v

/-- Map removal `delete(m, k)`. -/
def mapDelete (m : StringMap) (k : String) : StringMap :=
  m.filter (fun p => decide (p.1 ≠ k))

/-- The keys of a map, one per stored entry. -/
def mapKeys (m : StringMap) : List String :=
  m.map Prod.fst

/-! ## JSON values and `encoding/json` -/

/-- A JSON document. Numbers keep their literal, as the Go decoder does. -/
inductive JSON where
  | null
  | bool (b : Bool)
  | num (lit : String)
  | str (s : String)
  | arr (items : List JSON)
  | obj (members : List (String × JSON))

/-- The bytes read from a response body, as `encoding/json` sees them: text
that is not JSON (with the message of the resulting `SyntaxError`), or a JSON
value. -/
inductive Content where
  | invalid (msg : String)
  | valid (v : JSON)

/-- The Go field types that occur in the structs of `client.go`. -/
inductive Scalar where
  | str (s : String)
  | int (n : Int)
  | bool (b : Bool)
  deriving DecidableEq

/-- One exported struct field with its `json` tag. -/
structure Field (α : Type) where
  key : String
  omitempty : Bool
  get : α → Scalar
  set : α → Scalar → α

/-- A struct type as reflection presents it to `encoding/json`. -/
structure StructInfo (α : Type) where
  name : String
  fields : List (Field α)

/-- The `omitempty` test: empty string, zero, false. -/
def Scalar.isEmptyValue : Scalar → Bool
  | .str s => decide (s = "")
  | .int n => decide (n = 0)
  | .bool b => !b

/-- The JSON encoding of a field value. -/
def Scalar.toJSON : Scalar → JSON
  | .str s => JSON.str s
  | .int n => JSON.num (toString n)
  | .bool b => JSON.bool b

/-- The Go name of the type of a field value. -/
def Scalar.typeName : Scalar → String
  | .str _ => "string"
  | .int _ => "int"
  | .bool _ => "bool"

/-- Go `json.Marshal` on a struct: the fields in declaration order, a field
tagged `omitempty` left out when its value is empty. It cannot fail on the
structs of this package. -/
def Marshal {α : Type} (info : StructInfo α) (v : α) : JSON :=
  JSON.obj ((info.fields.filter (fun f => !(f.omitempty && (f.get v).isEmptyValue))).map
    (fun f => (f.key, (f.get v).toJSON)))

/-- The member `key` of a JSON object (the first one), if any. -/
def JSON.member (j : JSON) (key : String) : Option JSON :=
  match j with
  | .obj members => (members.find? (fun p => decide (p.1 = key))).map Prod.snd
  | _ => none

/-- The word `encoding/json` uses for a value in an `UnmarshalTypeError`. -/
def JSON.kindName : JSON → String
  | .null => "null"
  | .bool _ => "bool"
  | .num _ => "number"
  | .str _ => "string"
  | .arr _ => "array"
  | .obj _ => "object"

/-- The value of a non-empty run of decimal digits. -/
def parseDigits : List Char → Option Nat
  | [] => none
  | c :: cs =>
    (c :: cs).foldl
      (fun acc d => acc.bind (fun n => if d.isDigit then some (10 * n + (d.toNat - 48)) else none))
      (some 0)

/-- Go `strconv.ParseInt(lit, 10, 64)`. -/
def parseInt64 (lit : String) : Option Int :=
  match lit.data with
  | '-' :: ds => (parseDigits ds).bind (fun n => if n ≤ 2 ^ 63 then some (-(n : Int)) else none)
  | '+' :: ds => (parseDigits ds).bind (fun n => if n < 2 ^ 63 then some (n : Int) else none)
  | ds => (parseDigits ds).bind (fun n => if n < 2 ^ 63 then some (n : Int) else none)

/-- One position of the case-insensitive key comparison of `encoding/json`
(`fold.go`): `sb` is a character of the field name, `tb` of the key. Letters
match in either case, `k` also matches the Kelvin sign and `s` the long s. -/
def equalFoldChar (sb tb : Char) : Bool :=
  decide (sb = tb)
    || (sb.isAlpha && decide (tb.toNat < 128) && decide (sb.toUpper = tb.toUpper))
    || (decide (sb.toUpper = 'S') && decide (tb = Char.ofNat 0x17F))
    || (decide (sb.toUpper = 'K') && decide (tb = Char.ofNat 0x212A))

/-- The case-insensitive comparison of a field name with an object key. -/
def equalFold : List Char → List Char → Bool
  | [], [] => true
  | sb :: s, tb :: t => equalFoldChar sb tb && equalFold s t
  | _, _ => false

/-- The field an object key is stored into: an exact match of the tag name,
otherwise the first field that matches case-insensitively. -/
def findField {α : Type} (fields : List (Field α)) (key : String) : Option (Field α) :=
  match fields.find? (fun f => decide (f.key = key)) with
  | some f => some f
  | none => fields.find? (fun f => equalFold f.key.data key.data)

/-- The message of a `json.UnmarshalTypeError` raised inside a struct. -/
def fieldTypeError (structName key value type : String) : String :=
  "json: cannot unmarshal " ++ value ++ " into Go struct field " ++ structName ++ "." ++ key
    ++ " of type " ++ type

/-- Storing one JSON value into one struct field: `null` is a no-op, a value
of the wrong kind leaves the field alone and reports a type error. -/
def storeField {α : Type} (info : StructInfo α) (f : Field α) (v : α) (j : JSON) :
    α × Option String :=
  match j, f.get v with
  | .null, _ => (v, none)
  | .str s, .str _ => (f.set v (.str s), none)
  | .bool b, .bool _ => (f.set v (.bool b), none)
  | .num lit, .int _ =>
    match parseInt64 lit with
    | some n => (f.set v (.int n), none)
    | none => (v, some (fieldTypeError info.name f.key ("number " ++ lit) "int"))
  | j, cur => (v, some (fieldTypeError info.name f.key j.kindName cur.typeName))

/-- Decoding the members of an object in order; unknown keys are skipped, the
first type error is kept and decoding goes on. -/
def decodeMembers {α : Type} (info : StructInfo α) :
    List (String × JSON) → α → Option String → α × Option String
  | [], v, saved => (v, saved)
  | (key, j) :: rest, v, saved =>
    match findField info.fields key with
    | none => decodeMembers info rest v saved
    | some f =>
      let r := storeField info f v j
      decodeMembers info rest r.1 (match saved with | some e => some e | none => r.2)

/-- Go `json.Unmarshal(content, &v)` for `v` an interface that holds a pointer
to a struct (and for a plain struct pointer): returns the struct as left by the
decoder and the error. -/
def Unmarshal {α : Type} (info : StructInfo α) (content : Content) (v : α) : α × Option String :=
  match content with
  | .invalid msg => (v, some msg)
  | .valid .null => (v, none)
  | .valid (.obj members) => decodeMembers info members v none
  | .valid j =>
    (v, some ("json: cannot unmarshal " ++ j.kindName ++ " into Go value of type memset."
      ++ info.name))

/-! ## The structs of `client.go` -/

/-- The constant `defaultBaseURL`. -/
def defaultBaseURL : String := "https://api.memset.com"

/-- A response from Memset's API after making a TXT record. -/
structure record where
  ID : String := ""
  ZoneID : String := ""
  Typ : String := ""
  Record : String := ""
  Address : String := ""
  TTL : Int := 0
  Priority : Int := 0
  Relative : Bool := false
  APIKey : String := ""
  deriving DecidableEq

/-- The error envelope of the API. -/
structure errorResponse where
  ErrorType : String := ""
  ErrorCode : String := ""
  Error : String := ""
  deriving DecidableEq

/-- The status of a job, as answered by `dns.reload`. -/
structure jobStatus where
  ID : String := ""
  Typ : String := ""
  Status : String := ""
  Service : String := ""
  Finished : Bool := false
  Error : Bool := false
  APIKey : String := ""
  deriving DecidableEq

/-- The parameters of `dns.reload`. -/
structure apiKey where
  APIKey : String := ""
  deriving DecidableEq

/-- The parameters and the answer of `dns.zone_domain_info`. -/
structure zoneDomain where
  ID : String := ""
  Domain : String := ""
  APIKey : String := ""
  deriving DecidableEq

/-- A string field. -/
def strField {α : Type} (key : String) (omitempty : Bool) (get : α → String)
    (set : α → String → α) : Field α :=
  ⟨key, omitempty, fun v => .str (get v),
    fun v x => match x with | .str s => set v s | _ => v⟩

/-- An `int` field. -/
def intField {α : Type} (key : String) (omitempty : Bool) (get : α → Int)
    (set : α → Int → α) : Field α :=
  ⟨key, omitempty, fun v => .int (get v),
    fun v x => match x with | .int n => set v n | _ => v⟩

/-- A `bool` field. -/
def boolField {α : Type} (key : String) (omitempty : Bool) (get : α → Bool)
    (set : α → Bool → α) : Field α :=
  ⟨key, omitempty, fun v => .bool (get v),
    fun v x => match x with | .bool b => set v b | _ => v⟩

/-- The fields and tags of `record`. -/
def record.info : StructInfo record :=
  ⟨"record",
   [strField "id" true (fun r => r.ID) (fun r s => { r with ID := s }),
    strField "zone_id" true (fun r => r.ZoneID) (fun r s => { r with ZoneID := s }),
    strField "type" true (fun r => r.Typ) (fun r s => { r with Typ := s }),
    strField "record" true (fun r => r.Record) (fun r s => { r with Record := s }),
    strField "address" true (fun r => r.Address) (fun r s => { r with Address := s }),
    intField "ttl" true (fun r => r.TTL) (fun r n => { r with TTL := n }),
    intField "priority" true (fun r => r.Priority) (fun r n => { r with Priority := n }),
    boolField "relative" true (fun r => r.Relative) (fun r b => { r with Relative := b }),
    strField "api_key" true (fun r => r.APIKey) (fun r s => { r with APIKey := s })]⟩

/-- The fields and tags of `errorResponse`. -/
def errorResponse.info : StructInfo errorResponse :=
  ⟨"errorResponse",
   [strField "error_type" false (fun r => r.ErrorType) (fun r s => { r with ErrorType := s }),
    strField "error_code" false (fun r => r.ErrorCode) (fun r s => { r with ErrorCode := s }),
    strField "error" false (fun r => r.Error) (fun r s => { r with Error := s })]⟩

/-- The fields and tags of `jobStatus`. -/
def jobStatus.info : StructInfo jobStatus :=
  ⟨"jobStatus",
   [strField "id" false (fun r => r.ID) (fun r s => { r with ID := s }),
    strField "type" true (fun r => r.Typ) (fun r s => { r with Typ := s }),
    strField "status" true (fun r => r.Status) (fun r s => { r with Status := s }),
    strField "service" true (fun r => r.Service) (fun r s => { r with Service := s }),
    boolField "finished" true (fun r => r.Finished) (fun r b => { r with Finished := b }),
    boolField "error" true (fun r => r.Error) (fun r b => { r with Error := b }),
    strField "api_key" true (fun r => r.APIKey) (fun r s => { r with APIKey := s })]⟩

/-- The fields and tags of `apiKey`. -/
def apiKey.info : StructInfo apiKey :=
  ⟨"apiKey",
   [strField "api_key" false (fun r => r.APIKey) (fun r s => { r with APIKey := s })]⟩

/-- The fields and tags of `zoneDomain`. -/
def zoneDomain.info : StructInfo zoneDomain :=
  ⟨"zoneDomain",
   [strField "zone_id" true (fun r => r.ID) (fun r s => { r with ID := s }),
    strField "domain" false (fun r => r.Domain) (fun r s => { r with Domain := s }),
    strField "api_key" true (fun r => r.APIKey) (fun r s => { r with APIKey := s })]⟩

/-! ## The outside world -/

/-- One `http.PostForm` call: the URL and the JSON document sent as the value
of the form field `parameters`. -/
structure Request where
  url : String
  parameters : JSON

/-- An HTTP response; reading its body may fail. The status code is not
looked at by the client. -/
structure Response where
  body : Except String Content

/-- The collaborators outside this package. `digest` is the base64url SHA-256
of a key authorisation, `findZone` is `dns01.FindZoneByFqdn`, `post` is the
server answering a request after the requests in `log`. -/
structure World where
  digest : String → String
  findZone : String → Except String String
  post : List Request → Request → Except String Response
  log : List Request

/-- Modelled from the spec: `dns01.GetRecord` is not among the sources; "the
derived FQDN is always `_acme-challenge.<domain>.` and the value is the
base64url SHA-256 digest of the key authorization". -/
def GetRecord (w : World) (domain keyAuth : String) : String × String :=
  ("_acme-challenge." ++ domain ++ ".", w.digest keyAuth)

/-! ## `memset.go` -/

/-- The configuration of the provider. Durations are in nanoseconds; the HTTP
client is represented by its timeout and may be nil. -/
structure Config where
  BaseURL : String
  AuthToken : String
  TTL : Int
  PropagationTimeout : Int
  PollingInterval : Int
  HTTPClient : Option Int
  deriving DecidableEq

/-- The provider: its configuration and the record-ID table. -/
structure DNSProvider where
  config : Config
  recordIDs : StringMap
  deriving DecidableEq

/-- The TTL values accepted by the `switch` of `NewDNSProviderConfig`. -/
def validTTLs : List Int :=
  [0, 300, 600, 1800, 3600, 7200, 10800, 21600, 43200, 86400]

/-- The function `NewDNSProviderConfig`; `none` is the nil configuration. -/
def NewDNSProviderConfig (config : Option Config) : Except String DNSProvider :=
  match config with
  | none => .error "memset: the configuration of the DNS provider is nil"
  | some config =>
    if config.AuthToken = "" then
      .error "memset: credentials missing"
    else
      let config := if config.BaseURL = "" then { config with BaseURL := defaultBaseURL } else config
      if config.TTL ∈ validTTLs then
        .ok { config := config, recordIDs := [] }
      else
        .error ("memset: TTL " ++ toString config.TTL ++ " is invalid")

/-- The method `Timeout`. -/
def Timeout (d : DNSProvider) : Int × Int :=
  (d.config.PropagationTimeout, d.config.PollingInterval)

/-! ## `client.go` -/

/-- The method `newRequest`: the world after the call, the decoded value and
the error. -/
def newRequest {α : Type} (w : World) (reqURL : String) (data : JSON) (info : StructInfo α)
    (v : α) : World × α × Option String :=
  let w' := { w with log := w.log ++ [⟨reqURL, data⟩] }
  match w.post w.log ⟨reqURL, data⟩ with
  | .error e => (w', v, some e)
  | .ok resp =>
    match resp.body with
    | .error e => (w', v, some e)
    | .ok content =>
      match Unmarshal info content v with
      | (v', none) => (w', v', none)
      | (v', some err) =>
        -- This might be an error response. Attempt to parse it.
        match Unmarshal errorResponse.info content ({} : errorResponse) with
        | (apiError, none) =>
          (w', v', some ("unexpected response from memset: " ++ apiError.ErrorType ++ " - "
            ++ apiError.Error))
        | (_, some _) => (w', v', some err)

/-- The method `removeTxtRecord`. -/
def removeTxtRecord (d : DNSProvider) (w : World) (recordID : String) : World × Option String :=
  let recordToRemove : record := { ID := recordID, APIKey := d.config.AuthToken }
  let reqURL := d.config.BaseURL ++ "/v1/json/dns.zone_record_delete"
  let recordData := Marshal record.info recordToRemove
  let r := newRequest w reqURL recordData record.info ({} : record)
  (r.1, r.2.2)

/-- The method `addTxtRecord`. -/
def addTxtRecord (d : DNSProvider) (w : World) (fqdn value : String) :
    World × Except String record :=
  match w.findZone (ToFqdn fqdn) with
  | .error err =>
    (w, .error ("could not determine zone for domain: '" ++ fqdn ++ "'. " ++ err))
  | .ok authZone =>
    -- Lookup the ID of the zone domain
    let zoneLookup : zoneDomain := { APIKey := d.config.AuthToken, Domain := UnFqdn authZone }
    let queryData := Marshal zoneDomain.info zoneLookup
    match newRequest w (d.config.BaseURL ++ "/v1/json/dns.zone_domain_info") queryData
        zoneDomain.info ({} : zoneDomain) with
    | (w1, _, some err) => (w1, .error err)
    | (w1, zone, none) =>
      -- Create record
      let host := UnFqdn (TrimSuffix (UnFqdn fqdn) (UnFqdn authZone))
      let newRecord : record :=
        { ZoneID := zone.ID, Typ := "TXT", Record := host, Address := value,
          TTL := d.config.TTL, APIKey := d.config.AuthToken }
      let recordData := Marshal record.info newRecord
      match newRequest w1 (d.config.BaseURL ++ "/v1/json/dns.zone_record_create") recordData
          record.info ({} : record) with
      | (w2, _, some err) => (w2, .error err)
      | (w2, newTxtRecord, none) =>
        -- Trigger a DNS reload to put the record live
        let apiKeyData := Marshal apiKey.info ({ APIKey := d.config.AuthToken } : apiKey)
        match newRequest w2 (d.config.BaseURL ++ "/v1/json/dns.reload") apiKeyData
            jobStatus.info ({} : jobStatus) with
        | (w3, _, some err) => (w3, .error err)
        | (w3, _, none) => (w3, .ok newTxtRecord)

/-! ## `Present` and `CleanUp` -/

/-- What a call of `Present` or `CleanUp` leaves behind: the provider, the
world, and the returned error. -/
structure Outcome where
  provider : DNSProvider
  world : World
  err : Option String

/-- The method `Present`. -/
def Present (d : DNSProvider) (w : World) (domain _token keyAuth : String) : Outcome :=
  let (fqdn, value) := GetRecord w domain keyAuth
  match addTxtRecord d w fqdn value with
  | (w', .error err) => ⟨d, w', some ("memset: " ++ err)⟩
  | (w', .ok respData) =>
    ⟨{ d with recordIDs := mapSet d.recordIDs fqdn respData.ID }, w', none⟩

/-- The method `CleanUp`. -/
def CleanUp (d : DNSProvider) (w : World) (domain _token keyAuth : String) : Outcome :=
  let (fqdn, _) := GetRecord w domain keyAuth
  -- get the record's unique ID from when we created it
  match mapGet d.recordIDs fqdn with
  | none => ⟨d, w, some ("memset: unknown record ID for '" ++ fqdn ++ "'")⟩
  | some recordID =>
    match removeTxtRecord d w recordID with
    | (w', some err) => ⟨d, w', some ("memset: " ++ err)⟩
    | (w', none) =>
      -- Delete record ID from map
      ⟨{ d with recordIDs := mapDelete d.recordIDs fqdn }, w', none⟩

/-! ## A server like the one of `memset_test.go` -/

/-- The answers of the handlers of `TestDNSProvider_Present` and
`TestDNSProvider_CleanUp`, by the last segment of the URL. -/
def testPost (base : String) (_log : List Request) (req : Request) : Except String Response :=
  if req.url = base ++ "/v1/json/dns.zone_domain_info" then
    .ok ⟨.ok (.valid (.obj [("zone_id", .str "123456"), ("domain", .str "example.com")]))⟩
  else if req.url = base ++ "/v1/json/dns.zone_record_create" then
    .ok ⟨.ok (.valid (.obj [("id", .str "abcdef"), ("zone_id", .str "123456"),
      ("type", .str "TXT"), ("record", .str "_acme-challenge"),
      ("address", .str "w6uP8Tcg6K2QR905Rms8iXTlksL6OD1KOWBxTK7wxPI"), ("ttl", .num "300")]))⟩
  else if req.url = base ++ "/v1/json/dns.reload" then
    .ok ⟨.ok (.valid (.obj [("id", .str "zxcvb"), ("type", .str "reload"),
      ("status", .str "pending"), ("service", .str "dns"), ("finished", .bool false),
      ("error", .bool false)]))⟩
  else if req.url = base ++ "/v1/json/dns.zone_record_delete" then
    .ok ⟨.ok (.valid (.obj [("id", .str "abcdef"), ("zone_id", .str "123456"),
      ("type", .str "TXT"), ("record", .str "_acme-challenge"),
      ("address", .str "w6uP8Tcg6K2QR905Rms8iXTlksL6OD1KOWBxTK7wxPI"), ("ttl", .num "300")]))⟩
  else
    .error "404 page not found"

/-- The world of the tests: the zone of every name is `example.com.`. -/
def testWorld : World :=
  { digest := fun _ => "w6uP8Tcg6K2QR905Rms8iXTlksL6OD1KOWBxTK7wxPI"
    findZone := fun _ => .ok "example.com."
    post := testPost "http://127.0.0.1"
    log := [] }

/-- The configuration of `setupTest`, with the TTL left open. -/
def testConfig (ttl : Int) : Config :=
  { BaseURL := "http://127.0.0.1", AuthToken := "asdf1234", TTL := ttl,
    PropagationTimeout := 60000000000, PollingInterval := 5000000000,
    HTTPClient := some 30000000000 }

/-- The provider of `setupTest`. -/
def testProvider (ttl : Int) : DNSProvider :=
  { config := testConfig ttl, recordIDs := [] }

/-- The test server with `dns.reload` unreachable. -/
def reloadDownWorld : World :=
  { testWorld with
    post := fun log req =>
      if req.url = "http://127.0.0.1/v1/json/dns.reload" then .error "connection refused"
      else testPost "http://127.0.0.1" log req }

/-- The test server with `dns.zone_record_delete` unreachable. -/
def deleteDownWorld : World :=
  { testWorld with
    post := fun log req =>
      if req.url = "http://127.0.0.1/v1/json/dns.zone_record_delete" then
        .error "connection refused"
      else testPost "http://127.0.0.1" log req }

/-- The provider of `TestDNSProvider_CleanUp`, with one tracked record. -/
def trackedProvider : DNSProvider :=
  { config := testConfig 300, recordIDs := [("_acme-challenge.example.com.", "1234567")] }

/-! ## Several calls at once -/

/-- One call of `Present` among several running at once: its arguments, and
the world its own zone discovery and HTTP requests run against. -/
structure PresentCall where
  domain : String
  token : String
  keyAuth : String
  world : World

/-- Calls of `Present` whose critical sections (`recordIDsMu`) are entered in
the order of the list: the provider left by all of them and the error each
one returned. -/
def runPresents (d : DNSProvider) : List PresentCall → DNSProvider × List (Option String)
  | [] => (d, [])
  | c :: cs =>
    let o := Present d c.world c.domain c.token c.keyAuth
    let r := runPresents o.provider cs
    (r.1, o.err :: r.2)

/-- A second server, for `example.org`: as the test server, but record
creation answers with the identifier `ghijkl`. -/
def secondWorld : World :=
  { testWorld with
    findZone := fun _ => .ok "example.org."
    post := fun log req =>
      if req.url = "http://127.0.0.1/v1/json/dns.zone_record_create" then
        .ok ⟨.ok (.valid (.obj [("id", .str "ghijkl"), ("zone_id", .str "123456")]))⟩
      else testPost "http://127.0.0.1" log req }

/-- The call `Present("example.com", "", "foobar")` against the test server. -/
def firstCall : PresentCall :=
  { domain := "example.com", token := "", keyAuth := "foobar", world := testWorld }

/-- The call `Present("example.org", "", "foobar")` against the second server. -/
def secondCall : PresentCall :=
  { domain := "example.org", token := "", keyAuth := "foobar", world := secondWorld }

/-! ## Lemmas: strings and maps -/

theorem mapGet_mapSet_self (m : StringMap) (k v : String) : mapGet (mapSet m k v) k = some v := by
  induction m with
  | nil => simp [mapSet, mapGet]
  | cons p m ih =>
    obtain ⟨k', v'⟩ := p
    by_cases h : k' = k
    · simp [mapSet, mapGet, h]
    · simp [mapSet, mapGet, h, ih]

theorem mapGet_mapSet_other (m : StringMap) (k v k' : String) (h : k' ≠ k) :
    mapGet (mapSet m k v) k' = mapGet m k' := by
  induction m with
  | nil => simp [mapSet, mapGet, Ne.symm h]
  | cons p m ih =>
    obtain ⟨k0, v0⟩ := p
    by_cases h0 : k0 = k
    · subst h0
      simp [mapSet, mapGet, Ne.symm h]
    · by_cases h1 : k0 = k'
      · subst h1
        simp [mapSet, mapGet, h0]
      · simp [mapSet, mapGet, h0, h1, ih]

theorem mapGet_mapDelete_self (m : StringMap) (k : String) : mapGet (mapDelete m k) k = none := by
  induction m with
  | nil => simp [mapDelete, mapGet]
  | cons p m ih =>
    obtain ⟨k0, v0⟩ := p
    by_cases h0 : k0 = k
    · simpa [mapDelete, List.filter_cons, h0] using ih
    · simpa [mapDelete, List.filter_cons, h0, mapGet] using ih

theorem mapGet_mapDelete_other (m : StringMap) (k k' : String) (h : k' ≠ k) :
    mapGet (mapDelete m k) k' = mapGet m k' := by
  induction m with
  | nil => simp [mapDelete, mapGet]
  | cons p m ih =>
    obtain ⟨k0, v0⟩ := p
    by_cases h0 : k0 = k
    · subst h0
      simpa [mapDelete, List.filter_cons, mapGet, Ne.symm h] using ih
    · by_cases h1 : k0 = k'
      · subst h1
        simp [mapDelete, List.filter_cons, h0, mapGet]
      · simpa [mapDelete, List.filter_cons, h0, mapGet, h1] using ih

theorem mapKeys_mapSet (m : StringMap) (k v : String) :
    mapKeys (mapSet m k v) = if k ∈ mapKeys m then mapKeys m else mapKeys m ++ [k] := by
  induction m with
  | nil => simp [mapSet, mapKeys]
  | cons p m ih =>
    obtain ⟨k0, v0⟩ := p
    by_cases h0 : k0 = k
    · simp [mapSet, mapKeys, h0]
    · have h0' : ¬ k = k0 := fun h => h0 h.symm
      simp only [mapKeys] at ih
      simp only [mapSet, mapKeys, h0, if_false, List.map_cons, List.mem_cons, h0', false_or, ih]
      split <;> simp

theorem mapKeys_mapSet_nodup (m : StringMap) (k v : String) (h : (mapKeys m).Nodup) :
    (mapKeys (mapSet m k v)).Nodup := by
  rw [mapKeys_mapSet]
  split
  · exact h
  · rename_i hk
    exact List.Nodup.append h (List.nodup_singleton k) (by simpa using hk)

theorem mem_mapKeys_of_mapGet (m : StringMap) (k v : String) (h : mapGet m k = some v) :
    k ∈ mapKeys m := by
  induction m with
  | nil => simp [mapGet] at h
  | cons p m ih =>
    obtain ⟨k0, v0⟩ := p
    by_cases h0 : k0 = k
    · simp [mapKeys, h0]
    · simp only [mapGet, h0, if_false] at h
      simpa [mapKeys] using Or.inr (ih h)

theorem fqdn_injective (a b : String)
    (h : "_acme-challenge." ++ a ++ "." = "_acme-challenge." ++ b ++ ".") : a = b := by
  have h' := congrArg String.data h
  simp only [String.data_append] at h'
  have h2 := List.append_cancel_right h'
  have h3 := List.append_cancel_left h2
  exact String.ext h3

theorem UnFqdn_append_dot (s : String) : UnFqdn (s ++ ".") = s := by
  have h : (s ++ ".").data = s.data ++ ['.'] := by simp [String.data_append]
  unfold UnFqdn
  rw [h]
  simp [List.getLast?_append, List.dropLast_concat]

theorem TrimSuffix_append (a b : String) : TrimSuffix (a ++ b) b = a := by
  have h : (a ++ b).data = a.data ++ b.data := by simp [String.data_append]
  unfold TrimSuffix hasSuffix
  rw [h]
  simp

theorem ToFqdn_append_dot (s : String) : ToFqdn (s ++ ".") = s ++ "." := by
  have h : (s ++ ".").data = s.data ++ ['.'] := by simp [String.data_append]
  unfold ToFqdn
  rw [h]
  simp [List.getLast?_append]

/-! ## Lemmas: the steps of `Present` and `CleanUp` -/

theorem Present_of_error (d : DNSProvider) (w w' : World) (domain token keyAuth e : String)
    (h : addTxtRecord d w ("_acme-challenge." ++ domain ++ ".") (w.digest keyAuth) = (w', .error e)) :
    Present d w domain token keyAuth = ⟨d, w', some ("memset: " ++ e)⟩ := by
  simp [Present, GetRecord, h]

theorem Present_of_ok (d : DNSProvider) (w w' : World) (domain token keyAuth : String) (r : record)
    (h : addTxtRecord d w ("_acme-challenge." ++ domain ++ ".") (w.digest keyAuth) = (w', .ok r)) :
    Present d w domain token keyAuth =
      ⟨{ d with recordIDs := mapSet d.recordIDs ("_acme-challenge." ++ domain ++ ".") r.ID }, w',
        none⟩ := by
  simp [Present, GetRecord, h]

theorem newRequest_log {α : Type} (w : World) (reqURL : String) (data : JSON)
    (info : StructInfo α) (v : α) :
    (newRequest w reqURL data info v).1 = { w with log := w.log ++ [⟨reqURL, data⟩] } := by
  unfold newRequest
  split
  · rfl
  · split
    · rfl
    · split
      · rfl
      · split <;> rfl

theorem CleanUp_of_none (d : DNSProvider) (w : World) (domain token keyAuth : String)
    (h : mapGet d.recordIDs ("_acme-challenge." ++ domain ++ ".") = none) :
    CleanUp d w domain token keyAuth =
      ⟨d, w, some ("memset: unknown record ID for '" ++ ("_acme-challenge." ++ domain ++ ".")
        ++ "'")⟩ := by
  simp [CleanUp, GetRecord, h]

theorem removeTxtRecord_world (d : DNSProvider) (w : World) (recordID : String) :
    (removeTxtRecord d w recordID).1 =
      { w with log := w.log ++ [⟨d.config.BaseURL ++ "/v1/json/dns.zone_record_delete",
        Marshal record.info ({ ID := recordID, APIKey := d.config.AuthToken } : record)⟩] } := by
  simp [removeTxtRecord, newRequest_log]

theorem CleanUp_of_some (d : DNSProvider) (w : World) (domain token keyAuth recordID : String)
    (h : mapGet d.recordIDs ("_acme-challenge." ++ domain ++ ".") = some recordID) :
    CleanUp d w domain token keyAuth =
      match (removeTxtRecord d w recordID).2 with
      | some err => ⟨d, (removeTxtRecord d w recordID).1, some ("memset: " ++ err)⟩
      | none => ⟨{ d with recordIDs := mapDelete d.recordIDs ("_acme-challenge." ++ domain ++ ".") },
          (removeTxtRecord d w recordID).1, none⟩ := by
  simp only [CleanUp, GetRecord, h]
  rcases hr : removeTxtRecord d w recordID with ⟨w', (_ | e)⟩ <;> simp


/-! ## Construction (C1, C2) -/

theorem validTTLs_mem (n : Int) :
    n ∈ validTTLs ↔ n = 0 ∨ n = 300 ∨ n = 600 ∨ n = 1800 ∨ n = 3600 ∨ n = 7200 ∨ n = 10800
      ∨ n = 21600 ∨ n = 43200 ∨ n = 86400 := by
  simp [validTTLs]

/-- C1: for a non-nil configuration with a non-empty auth token,
`NewDNSProviderConfig` succeeds exactly when the TTL is one of 0, 300, 600,
1800, 3600, 7200, 10800, 21600, 43200, 86400; for any other integer TTL it
returns the error `memset: TTL <n> is invalid` (and so no provider). -/
theorem NewDNSProviderConfig_ttl (config : Config) (h : config.AuthToken ≠ "") :
    ((∃ p, NewDNSProviderConfig (some config) = .ok p) ↔
      (config.TTL = 0 ∨ config.TTL = 300 ∨ config.TTL = 600 ∨ config.TTL = 1800
        ∨ config.TTL = 3600 ∨ config.TTL = 7200 ∨ config.TTL = 10800 ∨ config.TTL = 21600
        ∨ config.TTL = 43200 ∨ config.TTL = 86400)) ∧
    (¬ (config.TTL = 0 ∨ config.TTL = 300 ∨ config.TTL = 600 ∨ config.TTL = 1800
        ∨ config.TTL = 3600 ∨ config.TTL = 7200 ∨ config.TTL = 10800 ∨ config.TTL = 21600
        ∨ config.TTL = 43200 ∨ config.TTL = 86400) →
      NewDNSProviderConfig (some config)
        = .error ("memset: TTL " ++ toString config.TTL ++ " is invalid")) := by
  rw [← validTTLs_mem]
  have hT : (if config.BaseURL = "" then { config with BaseURL := defaultBaseURL } else config).TTL
      = config.TTL := by split <;> rfl
  by_cases hv : config.TTL ∈ validTTLs
  · simp [NewDNSProviderConfig, h, hT, hv]
  · simp [NewDNSProviderConfig, h, hT, hv]

/-- C1 at the configuration of the tests: TTL 7 is refused with its message,
TTL 300 is accepted. -/
theorem NewDNSProviderConfig_ttl_witness :
    (testConfig 7).AuthToken ≠ "" ∧
    NewDNSProviderConfig (some (testConfig 7)) = .error "memset: TTL 7 is invalid" ∧
    (∃ p, NewDNSProviderConfig (some (testConfig 300)) = .ok p) :=
  ⟨by decide, (NewDNSProviderConfig_ttl (testConfig 7) (by decide)).2 (by decide),
   (NewDNSProviderConfig_ttl (testConfig 300) (by decide)).1.mpr (by decide)⟩

/-- C2: a non-nil configuration whose auth token is empty is refused with
exactly `memset: credentials missing`, whatever its other fields hold. -/
theorem NewDNSProviderConfig_credentials (config : Config) (h : config.AuthToken = "") :
    NewDNSProviderConfig (some config) = .error "memset: credentials missing" := by
  simp [NewDNSProviderConfig, h]

/-- C2 at a configuration with an empty token and the invalid TTL 7. -/
theorem NewDNSProviderConfig_credentials_witness :
    ({ testConfig 7 with AuthToken := "" } : Config).AuthToken = "" ∧
    NewDNSProviderConfig (some { testConfig 7 with AuthToken := "" })
      = .error "memset: credentials missing" :=
  ⟨rfl, NewDNSProviderConfig_credentials { testConfig 7 with AuthToken := "" } rfl⟩

/-! ## Unknown record and errors (C4, C7) -/

/-- C4: when the table has no entry for `_acme-challenge.<domain>.`, `CleanUp`
fails with `memset: unknown record ID for '<fqdn>'`, leaves the table (and the
whole provider) as it was, and sends no request. -/
theorem CleanUp_unknown_record (d : DNSProvider) (w : World) (domain token keyAuth : String)
    (h : mapGet d.recordIDs ("_acme-challenge." ++ domain ++ ".") = none) :
    (CleanUp d w domain token keyAuth).err
        = some ("memset: unknown record ID for '" ++ ("_acme-challenge." ++ domain ++ ".") ++ "'")
      ∧ (CleanUp d w domain token keyAuth).provider.recordIDs = d.recordIDs
      ∧ (CleanUp d w domain token keyAuth).provider = d
      ∧ (CleanUp d w domain token keyAuth).world.log = w.log := by
  rw [CleanUp_of_none d w domain token keyAuth h]
  exact ⟨rfl, rfl, rfl, rfl⟩

/-- C4 at the fresh provider of the tests. -/
theorem CleanUp_unknown_record_witness :
    mapGet (testProvider 300).recordIDs ("_acme-challenge." ++ "example.com" ++ ".") = none ∧
    (CleanUp (testProvider 300) testWorld "example.com" "" "").err
      = some "memset: unknown record ID for '_acme-challenge.example.com.'" :=
  ⟨by decide, (CleanUp_unknown_record (testProvider 300) testWorld "example.com" "" ""
    (by decide)).1⟩

theorem Present_err_provider (d : DNSProvider) (w : World) (domain token keyAuth : String)
    (h : (Present d w domain token keyAuth).err ≠ none) :
    (Present d w domain token keyAuth).provider = d := by
  rcases ha : addTxtRecord d w ("_acme-challenge." ++ domain ++ ".") (w.digest keyAuth)
    with ⟨w', (e | r)⟩
  · rw [Present_of_error d w w' domain token keyAuth e ha]
  · rw [Present_of_ok d w w' domain token keyAuth r ha] at h
    exact absurd rfl h

theorem CleanUp_log_of_some (d : DNSProvider) (w : World) (domain token keyAuth recordID : String)
    (h : mapGet d.recordIDs ("_acme-challenge." ++ domain ++ ".") = some recordID) :
    (CleanUp d w domain token keyAuth).world.log =
      w.log ++ [⟨d.config.BaseURL ++ "/v1/json/dns.zone_record_delete",
        Marshal record.info ({ ID := recordID, APIKey := d.config.AuthToken } : record)⟩] := by
  rw [CleanUp_of_some d w domain token keyAuth recordID h]
  split <;> simp [removeTxtRecord_world]

theorem CleanUp_err_provider (d : DNSProvider) (w : World) (domain token keyAuth : String)
    (h : (CleanUp d w domain token keyAuth).err ≠ none) :
    (CleanUp d w domain token keyAuth).provider = d := by
  cases hg : mapGet d.recordIDs ("_acme-challenge." ++ domain ++ ".") with
  | none => rw [CleanUp_of_none d w domain token keyAuth hg]
  | some recordID =>
    rw [CleanUp_of_some d w domain token keyAuth recordID hg] at h ⊢
    split
    · rfl
    · rename_i hn
      rw [hn] at h
      exact absurd rfl h

/-- C7: whenever `Present` or `CleanUp` returns an error, the record-ID table
after the call is the table before it. After a failed delete the entry of the
FQDN is still there with the same identifier, the failed call has sent the
delete request for that identifier, and a retried `CleanUp`, in any world,
sends that same request. -/
theorem error_keeps_table (d : DNSProvider) (w : World) (domain token keyAuth : String) :
    ((Present d w domain token keyAuth).err ≠ none →
      (Present d w domain token keyAuth).provider.recordIDs = d.recordIDs) ∧
    ((CleanUp d w domain token keyAuth).err ≠ none →
      (CleanUp d w domain token keyAuth).provider.recordIDs = d.recordIDs ∧
      ∀ recordID, mapGet d.recordIDs ("_acme-challenge." ++ domain ++ ".") = some recordID →
        mapGet (CleanUp d w domain token keyAuth).provider.recordIDs
            ("_acme-challenge." ++ domain ++ ".") = some recordID ∧
        (CleanUp d w domain token keyAuth).world.log =
          w.log ++ [⟨d.config.BaseURL ++ "/v1/json/dns.zone_record_delete",
            Marshal record.info ({ ID := recordID, APIKey := d.config.AuthToken } : record)⟩] ∧
        ∀ (w2 : World) (token2 keyAuth2 : String),
          (CleanUp (CleanUp d w domain token keyAuth).provider w2 domain token2 keyAuth2).world.log =
            w2.log ++ [⟨d.config.BaseURL ++ "/v1/json/dns.zone_record_delete",
              Marshal record.info ({ ID := recordID, APIKey := d.config.AuthToken } : record)⟩]) := by
  refine ⟨fun h => by rw [Present_err_provider d w domain token keyAuth h], fun h => ?_⟩
  have hp := CleanUp_err_provider d w domain token keyAuth h
  refine ⟨by rw [hp], fun recordID hg => ⟨by rw [hp]; exact hg, ?_, fun w2 token2 keyAuth2 => ?_⟩⟩
  · exact CleanUp_log_of_some d w domain token keyAuth recordID hg
  · rw [hp]
    exact CleanUp_log_of_some d w2 domain token2 keyAuth2 recordID hg

/-- C7 at the test server with the reload, respectively the delete, endpoint
unreachable. -/
theorem error_keeps_table_witness :
    (Present (testProvider 300) reloadDownWorld "example.com" "" "foobar").err ≠ none ∧
    (Present (testProvider 300) reloadDownWorld "example.com" "" "foobar").provider.recordIDs = [] ∧
    (CleanUp trackedProvider deleteDownWorld "example.com" "" "").err ≠ none ∧
    (CleanUp trackedProvider deleteDownWorld "example.com" "" "").provider.recordIDs
      = [("_acme-challenge.example.com.", "1234567")] :=
  ⟨by decide,
   (error_keeps_table (testProvider 300) reloadDownWorld "example.com" "" "foobar").1 (by decide),
   by decide,
   ((error_keeps_table trackedProvider deleteDownWorld "example.com" "" "").2 (by decide)).1⟩

/-! ## Round trip (C3) -/

theorem addTxtRecord_ok_steps (d : DNSProvider) (w w' : World) (fqdn value : String) (r : record)
    (h : addTxtRecord d w fqdn value = (w', .ok r)) :
    ∃ (authZone : String) (w1 w2 : World) (zone : zoneDomain),
      w.findZone (ToFqdn fqdn) = .ok authZone ∧
      newRequest w (d.config.BaseURL ++ "/v1/json/dns.zone_domain_info")
        (Marshal zoneDomain.info
          ({ APIKey := d.config.AuthToken, Domain := UnFqdn authZone } : zoneDomain))
        zoneDomain.info ({} : zoneDomain) = (w1, zone, none) ∧
      newRequest w1 (d.config.BaseURL ++ "/v1/json/dns.zone_record_create")
        (Marshal record.info
          ({ ZoneID := zone.ID, Typ := "TXT",
             Record := UnFqdn (TrimSuffix (UnFqdn fqdn) (UnFqdn authZone)),
             Address := value, TTL := d.config.TTL, APIKey := d.config.AuthToken } : record))
        record.info ({} : record) = (w2, r, none) := by
  unfold addTxtRecord at h
  split at h
  · simp at h
  · rename_i authZone hz
    refine ⟨authZone, ?_⟩
    simp only at h
    split at h
    · simp at h
    · rename_i w1 zone h1
      split at h
      · simp at h
      · rename_i w2 r' h2
        split at h
        · simp at h
        · simp only [Prod.mk.injEq, Except.ok.injEq] at h
          obtain ⟨-, rfl⟩ := h
          exact ⟨w1, w2, zone, hz, h1, h2⟩

/-- C3: when `Present` succeeds, zone discovery, the zone lookup and the record
creation have succeeded, and with `created` the decoded answer of the create
request the table maps `_acme-challenge.<domain>.` to `created.ID`. A following
`CleanUp` of the same domain, in any world, sends exactly one request: the
delete request built from the record with that identifier and the configured
api key (the JSON object `id`, `api_key` when both are non-empty). When that
delete request succeeds, `CleanUp` returns no error and the table has no entry
for the FQDN afterwards; when it fails with `e`, `CleanUp` returns `memset: <e>`
and the entry is still there. In particular a `CleanUp` without error leaves
no entry. -/
theorem Present_CleanUp_round_trip (d : DNSProvider) (w : World) (domain token keyAuth : String)
    (h : (Present d w domain token keyAuth).err = none) :
    ∃ (authZone : String) (w1 w2 : World) (zone : zoneDomain) (created : record),
      w.findZone (ToFqdn ("_acme-challenge." ++ domain ++ ".")) = .ok authZone ∧
      newRequest w (d.config.BaseURL ++ "/v1/json/dns.zone_domain_info")
        (Marshal zoneDomain.info
          ({ APIKey := d.config.AuthToken, Domain := UnFqdn authZone } : zoneDomain))
        zoneDomain.info ({} : zoneDomain) = (w1, zone, none) ∧
      newRequest w1 (d.config.BaseURL ++ "/v1/json/dns.zone_record_create")
        (Marshal record.info
          ({ ZoneID := zone.ID, Typ := "TXT",
             Record := UnFqdn (TrimSuffix (UnFqdn ("_acme-challenge." ++ domain ++ "."))
               (UnFqdn authZone)),
             Address := w.digest keyAuth, TTL := d.config.TTL,
             APIKey := d.config.AuthToken } : record))
        record.info ({} : record) = (w2, created, none) ∧
      mapGet (Present d w domain token keyAuth).provider.recordIDs
        ("_acme-challenge." ++ domain ++ ".") = some created.ID ∧
      ∀ (wc : World) (token2 keyAuth2 : String),
        (CleanUp (Present d w domain token keyAuth).provider wc domain token2 keyAuth2).world.log
          = wc.log ++ [⟨d.config.BaseURL ++ "/v1/json/dns.zone_record_delete",
              Marshal record.info
                ({ ID := created.ID, APIKey := d.config.AuthToken } : record)⟩] ∧
        (created.ID ≠ "" → d.config.AuthToken ≠ "" →
          Marshal record.info ({ ID := created.ID, APIKey := d.config.AuthToken } : record)
            = JSON.obj [("id", .str created.ID), ("api_key", .str d.config.AuthToken)]) ∧
        ((newRequest wc (d.config.BaseURL ++ "/v1/json/dns.zone_record_delete")
            (Marshal record.info ({ ID := created.ID, APIKey := d.config.AuthToken } : record))
            record.info ({} : record)).2.2 = none →
          (CleanUp (Present d w domain token keyAuth).provider wc domain token2 keyAuth2).err = none ∧
          mapGet
            (CleanUp (Present d w domain token keyAuth).provider wc domain token2 keyAuth2).provider.recordIDs
            ("_acme-challenge." ++ domain ++ ".") = none) ∧
        (∀ e : String,
          (newRequest wc (d.config.BaseURL ++ "/v1/json/dns.zone_record_delete")
            (Marshal record.info ({ ID := created.ID, APIKey := d.config.AuthToken } : record))
            record.info ({} : record)).2.2 = some e →
          (CleanUp (Present d w domain token keyAuth).provider wc domain token2 keyAuth2).err
            = some ("memset: " ++ e) ∧
          mapGet
            (CleanUp (Present d w domain token keyAuth).provider wc domain token2 keyAuth2).provider.recordIDs
            ("_acme-challenge." ++ domain ++ ".") = some created.ID) ∧
        ((CleanUp (Present d w domain token keyAuth).provider wc domain token2 keyAuth2).err = none →
          mapGet
            (CleanUp (Present d w domain token keyAuth).provider wc domain token2 keyAuth2).provider.recordIDs
            ("_acme-challenge." ++ domain ++ ".") = none) := by
  rcases ha : addTxtRecord d w ("_acme-challenge." ++ domain ++ ".") (w.digest keyAuth)
    with ⟨w', (e | r)⟩
  · rw [Present_of_error d w w' domain token keyAuth e ha] at h
    simp at h
  · obtain ⟨authZone, w1, w2, zone, hz, h1, h2⟩ := addTxtRecord_ok_steps d w w' _ _ r ha
    refine ⟨authZone, w1, w2, zone, r, hz, h1, h2, ?_, ?_⟩
    · rw [Present_of_ok d w w' domain token keyAuth r ha]
      exact mapGet_mapSet_self _ _ _
    · intro wc token2 keyAuth2
      rw [Present_of_ok d w w' domain token keyAuth r ha]
      have hg := mapGet_mapSet_self d.recordIDs ("_acme-challenge." ++ domain ++ ".") r.ID
      refine ⟨CleanUp_log_of_some _ wc domain token2 keyAuth2 r.ID hg, ?_, ?_, ?_, ?_⟩
      · intro hI hT
        simp [Marshal, record.info, strField, intField, boolField, Scalar.isEmptyValue,
          Scalar.toJSON, hI, hT]
      · intro hdel
        have hrem : (removeTxtRecord
            ⟨d.config, mapSet d.recordIDs ("_acme-challenge." ++ domain ++ ".") r.ID⟩
            wc r.ID).2 = none := hdel
        rw [CleanUp_of_some _ wc domain token2 keyAuth2 r.ID hg]
        split
        · rename_i err he
          rw [hrem] at he
          simp at he
        · exact ⟨rfl, mapGet_mapDelete_self _ _⟩
      · intro e hdel
        have hrem : (removeTxtRecord
            ⟨d.config, mapSet d.recordIDs ("_acme-challenge." ++ domain ++ ".") r.ID⟩
            wc r.ID).2 = some e := hdel
        rw [CleanUp_of_some _ wc domain token2 keyAuth2 r.ID hg]
        split
        · rename_i err he
          rw [hrem] at he
          cases he
          exact ⟨rfl, hg⟩
        · rename_i he
          rw [hrem] at he
          simp at he
      · intro hc
        rw [CleanUp_of_some _ wc domain token2 keyAuth2 r.ID hg] at hc ⊢
        split
        · rename_i err he
          rw [he] at hc
          simp at hc
        · exact mapGet_mapDelete_self _ _

/-- C3 at the scenario of the tests: `Present("example.com", "", "foobar")`
succeeds and the table holds the identifier `abcdef`; the following `CleanUp`
sends the delete request with `id` = `abcdef` and the api key, that request
succeeds, `CleanUp` returns no error and the entry is gone. With the delete
endpoint unreachable the same `CleanUp` fails and the entry stays. -/
theorem Present_CleanUp_round_trip_witness :
    (Present (testProvider 300) testWorld "example.com" "" "foobar").err = none ∧
    mapGet (Present (testProvider 300) testWorld "example.com" "" "foobar").provider.recordIDs
      "_acme-challenge.example.com." = some "abcdef" ∧
    (newRequest testWorld "http://127.0.0.1/v1/json/dns.zone_record_delete"
      (Marshal record.info ({ ID := "abcdef", APIKey := "asdf1234" } : record))
      record.info ({} : record)).2.2 = none ∧
    (CleanUp (Present (testProvider 300) testWorld "example.com" "" "foobar").provider testWorld
      "example.com" "" "").world.log
      = [⟨"http://127.0.0.1/v1/json/dns.zone_record_delete",
          JSON.obj [("id", .str "abcdef"), ("api_key", .str "asdf1234")]⟩] ∧
    (CleanUp (Present (testProvider 300) testWorld "example.com" "" "foobar").provider testWorld
      "example.com" "" "").err = none ∧
    mapGet (CleanUp (Present (testProvider 300) testWorld "example.com" "" "foobar").provider
      testWorld "example.com" "" "").provider.recordIDs "_acme-challenge.example.com." = none ∧
    (CleanUp (Present (testProvider 300) testWorld "example.com" "" "foobar").provider
      deleteDownWorld "example.com" "" "").err = some "memset: connection refused" ∧
    mapGet (CleanUp (Present (testProvider 300) testWorld "example.com" "" "foobar").provider
      deleteDownWorld "example.com" "" "").provider.recordIDs "_acme-challenge.example.com."
      = some "abcdef" := by
  have hp : (Present (testProvider 300) testWorld "example.com" "" "foobar").err = none := by
    decide
  have hm : mapGet
      (Present (testProvider 300) testWorld "example.com" "" "foobar").provider.recordIDs
      "_acme-challenge.example.com." = some "abcdef" := by decide
  obtain ⟨authZone, w1, w2, zone, created, -, -, -, hget, hclean⟩ :=
    Present_CleanUp_round_trip (testProvider 300) testWorld "example.com" "" "foobar" hp
  have hid : created.ID = "abcdef" := by
    have hget' : mapGet
        (Present (testProvider 300) testWorld "example.com" "" "foobar").provider.recordIDs
        "_acme-challenge.example.com." = some created.ID := hget
    rw [hm] at hget'
    exact (Option.some.inj hget').symm
  have hdel : (newRequest testWorld "http://127.0.0.1/v1/json/dns.zone_record_delete"
      (Marshal record.info ({ ID := "abcdef", APIKey := "asdf1234" } : record))
      record.info ({} : record)).2.2 = none := by decide
  have hdown : (newRequest deleteDownWorld "http://127.0.0.1/v1/json/dns.zone_record_delete"
      (Marshal record.info ({ ID := "abcdef", APIKey := "asdf1234" } : record))
      record.info ({} : record)).2.2 = some "connection refused" := by decide
  obtain ⟨hlog, -, hok, -, -⟩ := hclean testWorld "" ""
  obtain ⟨-, -, -, hfail, -⟩ := hclean deleteDownWorld "" ""
  rw [hid] at hlog hok hfail
  obtain ⟨hE, hG⟩ := hok hdel
  obtain ⟨hE2, hG2⟩ := hfail "connection refused" hdown
  exact ⟨hp, hm, hdel, hlog, hE, hG, hE2, hG2⟩

/-! ## Reload failure and error envelopes (C5, C6) -/

/-- C5 fails on the code: with `dns.reload` unreachable, zone discovery, the
zone lookup and the record creation (identifier `abcdef`) succeed and all three
requests are sent, yet `Present` returns `memset: connection refused` and the
table holds no entry for the FQDN. -/
theorem reload_down_counterexample :
    reloadDownWorld.findZone (ToFqdn "_acme-challenge.example.com.") = .ok "example.com." ∧
    (newRequest reloadDownWorld "http://127.0.0.1/v1/json/dns.zone_domain_info"
      (Marshal zoneDomain.info ({ APIKey := "asdf1234", Domain := "example.com" } : zoneDomain))
      zoneDomain.info ({} : zoneDomain)).2 = ({ ID := "123456", Domain := "example.com" }, none) ∧
    (newRequest
      (newRequest reloadDownWorld "http://127.0.0.1/v1/json/dns.zone_domain_info"
        (Marshal zoneDomain.info ({ APIKey := "asdf1234", Domain := "example.com" } : zoneDomain))
        zoneDomain.info ({} : zoneDomain)).1
      "http://127.0.0.1/v1/json/dns.zone_record_create"
      (Marshal record.info
        ({ ZoneID := "123456", Typ := "TXT", Record := "_acme-challenge",
           Address := "w6uP8Tcg6K2QR905Rms8iXTlksL6OD1KOWBxTK7wxPI", TTL := 300,
           APIKey := "asdf1234" } : record))
      record.info ({} : record)).2
      = ({ ID := "abcdef", ZoneID := "123456", Typ := "TXT", Record := "_acme-challenge",
           Address := "w6uP8Tcg6K2QR905Rms8iXTlksL6OD1KOWBxTK7wxPI", TTL := 300 }, none) ∧
    (Present (testProvider 300) reloadDownWorld "example.com" "" "foobar").world.log.map Request.url
      = ["http://127.0.0.1/v1/json/dns.zone_domain_info",
         "http://127.0.0.1/v1/json/dns.zone_record_create",
         "http://127.0.0.1/v1/json/dns.reload"] ∧
    (Present (testProvider 300) reloadDownWorld "example.com" "" "foobar").err
      = some "memset: connection refused" ∧
    mapGet (Present (testProvider 300) reloadDownWorld "example.com" "" "foobar").provider.recordIDs
      "_acme-challenge.example.com." = none := by
  refine ⟨rfl, by decide, by decide, by decide, by decide, by decide⟩

/-- C5, amended: when zone discovery, the zone lookup and the record creation
succeed and the reload request fails with error `e`, `Present` returns the
error `memset: <e>` and leaves the record-ID table as it was. -/
theorem Present_reload_failure (d : DNSProvider) (w w1 w2 w3 : World)
    (domain token keyAuth authZone e : String) (zone : zoneDomain) (created : record)
    (job : jobStatus)
    (hz : w.findZone (ToFqdn ("_acme-challenge." ++ domain ++ ".")) = .ok authZone)
    (h1 : newRequest w (d.config.BaseURL ++ "/v1/json/dns.zone_domain_info")
        (Marshal zoneDomain.info
          ({ APIKey := d.config.AuthToken, Domain := UnFqdn authZone } : zoneDomain))
        zoneDomain.info ({} : zoneDomain) = (w1, zone, none))
    (h2 : newRequest w1 (d.config.BaseURL ++ "/v1/json/dns.zone_record_create")
        (Marshal record.info
          ({ ZoneID := zone.ID, Typ := "TXT",
             Record := UnFqdn (TrimSuffix (UnFqdn ("_acme-challenge." ++ domain ++ "."))
               (UnFqdn authZone)),
             Address := w.digest keyAuth, TTL := d.config.TTL,
             APIKey := d.config.AuthToken } : record))
        record.info ({} : record) = (w2, created, none))
    (h3 : newRequest w2 (d.config.BaseURL ++ "/v1/json/dns.reload")
        (Marshal apiKey.info ({ APIKey := d.config.AuthToken } : apiKey))
        jobStatus.info ({} : jobStatus) = (w3, job, some e)) :
    (Present d w domain token keyAuth).err = some ("memset: " ++ e) ∧
    (Present d w domain token keyAuth).provider.recordIDs = d.recordIDs := by
  have ha : addTxtRecord d w ("_acme-challenge." ++ domain ++ ".") (w.digest keyAuth)
      = (w3, .error e) := by
    simp [addTxtRecord, hz, h1, h2, h3]
  rw [Present_of_error d w w3 domain token keyAuth e ha]
  exact ⟨rfl, rfl⟩

/-- C5, amended, at the test server with `dns.reload` unreachable. -/
theorem Present_reload_failure_witness :
    (Present (testProvider 300) reloadDownWorld "example.com" "" "foobar").err
      = some ("memset: " ++ "connection refused") ∧
    (Present (testProvider 300) reloadDownWorld "example.com" "" "foobar").provider.recordIDs
      = (testProvider 300).recordIDs :=
  Present_reload_failure (testProvider 300) reloadDownWorld
    { reloadDownWorld with log := [⟨"http://127.0.0.1/v1/json/dns.zone_domain_info",
        .obj [("domain", .str "example.com"), ("api_key", .str "asdf1234")]⟩] }
    { reloadDownWorld with log := [⟨"http://127.0.0.1/v1/json/dns.zone_domain_info",
        .obj [("domain", .str "example.com"), ("api_key", .str "asdf1234")]⟩,
        ⟨"http://127.0.0.1/v1/json/dns.zone_record_create",
        .obj [("zone_id", .str "123456"), ("type", .str "TXT"), ("record", .str "_acme-challenge"),
          ("address", .str "w6uP8Tcg6K2QR905Rms8iXTlksL6OD1KOWBxTK7wxPI"), ("ttl", .num "300"),
          ("api_key", .str "asdf1234")]⟩] }
    { reloadDownWorld with log := [⟨"http://127.0.0.1/v1/json/dns.zone_domain_info",
        .obj [("domain", .str "example.com"), ("api_key", .str "asdf1234")]⟩,
        ⟨"http://127.0.0.1/v1/json/dns.zone_record_create",
        .obj [("zone_id", .str "123456"), ("type", .str "TXT"), ("record", .str "_acme-challenge"),
          ("address", .str "w6uP8Tcg6K2QR905Rms8iXTlksL6OD1KOWBxTK7wxPI"), ("ttl", .num "300"),
          ("api_key", .str "asdf1234")]⟩,
        ⟨"http://127.0.0.1/v1/json/dns.reload", .obj [("api_key", .str "asdf1234")]⟩] }
    "example.com" "" "foobar" "example.com." "connection refused"
    { ID := "123456", Domain := "example.com" }
    { ID := "abcdef", ZoneID := "123456", Typ := "TXT", Record := "_acme-challenge",
      Address := "w6uP8Tcg6K2QR905Rms8iXTlksL6OD1KOWBxTK7wxPI", TTL := 300 }
    {} rfl rfl rfl rfl

/-- C6, what the code does: whatever the strings in an error envelope
`error_type`, `error_code`, `error`, `newRequest` decoding into a `zoneDomain`
or into a `record` returns no error and the zero value (the keys of the
envelope match no field, so the first decoding succeeds); only decoding into a
`jobStatus`, whose `error` field is a bool, reaches the fallback and returns
`unexpected response from memset: <error_type> - <error>`. -/
theorem newRequest_envelope_not_surfaced (w : World) (reqURL : String) (data : JSON)
    (errorType errorCode message : String) :
    (newRequest
      { w with post := fun _ _ => .ok ⟨.ok (.valid (.obj [("error_type", .str errorType),
          ("error_code", .str errorCode), ("error", .str message)]))⟩ }
      reqURL data zoneDomain.info ({} : zoneDomain)).2 = ({}, none) ∧
    (newRequest
      { w with post := fun _ _ => .ok ⟨.ok (.valid (.obj [("error_type", .str errorType),
          ("error_code", .str errorCode), ("error", .str message)]))⟩ }
      reqURL data record.info ({} : record)).2 = ({}, none) ∧
    (newRequest
      { w with post := fun _ _ => .ok ⟨.ok (.valid (.obj [("error_type", .str errorType),
          ("error_code", .str errorCode), ("error", .str message)]))⟩ }
      reqURL data jobStatus.info ({} : jobStatus)).2.2
      = some ("unexpected response from memset: " ++ errorType ++ " - " ++ message) := by
  refine ⟨?_, ?_, ?_⟩
  · rfl
  · rfl
  · rfl

/-! ## The requests of `addTxtRecord` (C8, C9) -/

theorem Marshal_record_create (zoneID host value token : String) (ttl : Int)
    (hz : zoneID ≠ "") (hh : host ≠ "") (hv : value ≠ "") (ht : token ≠ "") :
    Marshal record.info
        ({ ZoneID := zoneID, Typ := "TXT", Record := host, Address := value, TTL := ttl,
           APIKey := token } : record)
      = JSON.obj ([("zone_id", .str zoneID), ("type", .str "TXT"), ("record", .str host),
          ("address", .str value)]
          ++ (if ttl = 0 then [] else [("ttl", .num (toString ttl))])
          ++ [("api_key", .str token)]) := by
  by_cases h0 : ttl = 0
  · simp [Marshal, record.info, strField, intField, boolField, Scalar.isEmptyValue,
      Scalar.toJSON, hz, hh, hv, ht, h0, List.filter_cons]
  · simp [Marshal, record.info, strField, intField, boolField, Scalar.isEmptyValue,
      Scalar.toJSON, hz, hh, hv, ht, h0, List.filter_cons]

theorem Marshal_record_member_record (zoneID host value token : String) (ttl : Int)
    (hh : host ≠ "") :
    (Marshal record.info
        ({ ZoneID := zoneID, Typ := "TXT", Record := host, Address := value, TTL := ttl,
           APIKey := token } : record)).member "record" = some (.str host) := by
  by_cases hz : zoneID = ""
  · simp [Marshal, record.info, strField, intField, boolField, Scalar.isEmptyValue,
      Scalar.toJSON, hz, hh, List.filter_cons, JSON.member, List.find?_cons]
  · simp [Marshal, record.info, strField, intField, boolField, Scalar.isEmptyValue,
      Scalar.toJSON, hz, hh, List.filter_cons, JSON.member, List.find?_cons]

theorem Marshal_zoneDomain_member_domain (token domain : String) :
    (Marshal zoneDomain.info
        ({ APIKey := token, Domain := domain } : zoneDomain)).member "domain"
      = some (.str domain) := by
  simp [Marshal, zoneDomain.info, strField, Scalar.isEmptyValue,
      Scalar.toJSON, List.filter_cons, JSON.member, List.find?_cons]

theorem newRequest_world_of_eq {α : Type} {w w' : World} {reqURL : String} {data : JSON}
    {info : StructInfo α} {v v' : α} {e : Option String}
    (h : newRequest w reqURL data info v = (w', v', e)) :
    w' = { w with log := w.log ++ [⟨reqURL, data⟩] } := by
  have := newRequest_log w reqURL data info v
  rw [h] at this
  exact this

theorem getElem?_append_cons {α : Type} (l rest : List α) (a : α) :
    (l ++ a :: rest)[l.length]? = some a := by
  rw [List.getElem?_append_right (Nat.le_refl _)]
  simp

theorem getElem?_append_cons_cons {α : Type} (l rest : List α) (a b : α) :
    (l ++ a :: b :: rest)[l.length + 1]? = some b := by
  rw [List.getElem?_append_right (Nat.le_succ _)]
  simp

theorem addTxtRecord_log_create (d : DNSProvider) (w w1 : World) (fqdn value authZone : String)
    (zone : zoneDomain)
    (hz : w.findZone (ToFqdn fqdn) = .ok authZone)
    (h1 : newRequest w (d.config.BaseURL ++ "/v1/json/dns.zone_domain_info")
        (Marshal zoneDomain.info
          ({ APIKey := d.config.AuthToken, Domain := UnFqdn authZone } : zoneDomain))
        zoneDomain.info ({} : zoneDomain) = (w1, zone, none)) :
    ∃ rest, (addTxtRecord d w fqdn value).1.log
      = w.log ++ (⟨d.config.BaseURL ++ "/v1/json/dns.zone_domain_info",
          Marshal zoneDomain.info
            ({ APIKey := d.config.AuthToken, Domain := UnFqdn authZone } : zoneDomain)⟩ ::
        ⟨d.config.BaseURL ++ "/v1/json/dns.zone_record_create",
          Marshal record.info
            ({ ZoneID := zone.ID, Typ := "TXT",
               Record := UnFqdn (TrimSuffix (UnFqdn fqdn) (UnFqdn authZone)),
               Address := value, TTL := d.config.TTL, APIKey := d.config.AuthToken } : record)⟩ ::
        rest) := by
  have e1 := newRequest_world_of_eq h1
  unfold addTxtRecord
  simp only [hz, h1]
  rcases h2 : newRequest w1 (d.config.BaseURL ++ "/v1/json/dns.zone_record_create")
      (Marshal record.info
        ({ ZoneID := zone.ID, Typ := "TXT",
           Record := UnFqdn (TrimSuffix (UnFqdn fqdn) (UnFqdn authZone)),
           Address := value, TTL := d.config.TTL, APIKey := d.config.AuthToken } : record))
      record.info ({} : record) with ⟨w2, r, (_ | e)⟩
  · have e2 := newRequest_world_of_eq h2
    dsimp only
    rcases h3 : newRequest w2 (d.config.BaseURL ++ "/v1/json/dns.reload")
        (Marshal apiKey.info ({ APIKey := d.config.AuthToken } : apiKey))
        jobStatus.info ({} : jobStatus) with ⟨w3, j, (_ | e)⟩
    · have e3 := newRequest_world_of_eq h3
      refine ⟨[⟨d.config.BaseURL ++ "/v1/json/dns.reload",
        Marshal apiKey.info ({ APIKey := d.config.AuthToken } : apiKey)⟩], ?_⟩
      simp only [h3]
      simp [e3, e2, e1]
    · have e3 := newRequest_world_of_eq h3
      refine ⟨[⟨d.config.BaseURL ++ "/v1/json/dns.reload",
        Marshal apiKey.info ({ APIKey := d.config.AuthToken } : apiKey)⟩], ?_⟩
      simp only [h3]
      simp [e3, e2, e1]
  · have e2 := newRequest_world_of_eq h2
    exact ⟨[], by simp [e2, e1]⟩

theorem addTxtRecord_log_zone (d : DNSProvider) (w : World) (fqdn value authZone : String)
    (hz : w.findZone (ToFqdn fqdn) = .ok authZone) :
    ∃ rest, (addTxtRecord d w fqdn value).1.log
      = w.log ++ (⟨d.config.BaseURL ++ "/v1/json/dns.zone_domain_info",
          Marshal zoneDomain.info
            ({ APIKey := d.config.AuthToken, Domain := UnFqdn authZone } : zoneDomain)⟩ :: rest) := by
  rcases h1 : newRequest w (d.config.BaseURL ++ "/v1/json/dns.zone_domain_info")
      (Marshal zoneDomain.info
        ({ APIKey := d.config.AuthToken, Domain := UnFqdn authZone } : zoneDomain))
      zoneDomain.info ({} : zoneDomain) with ⟨w1, zone, (_ | e)⟩
  · obtain ⟨rest, hr⟩ := addTxtRecord_log_create d w w1 fqdn value authZone zone hz h1
    exact ⟨_, hr⟩
  · have e1 := newRequest_world_of_eq h1
    unfold addTxtRecord
    simp only [hz, h1]
    exact ⟨[], by simp [e1]⟩

theorem Present_world (d : DNSProvider) (w : World) (domain token keyAuth : String) :
    (Present d w domain token keyAuth).world
      = (addTxtRecord d w ("_acme-challenge." ++ domain ++ ".") (w.digest keyAuth)).1 := by
  rcases ha : addTxtRecord d w ("_acme-challenge." ++ domain ++ ".") (w.digest keyAuth)
    with ⟨w', (e | r)⟩
  · rw [Present_of_error d w w' domain token keyAuth e ha]
  · rw [Present_of_ok d w w' domain token keyAuth r ha]

/-- C8: for the challenge FQDN `label.apex.` with a non-empty label, when zone
discovery returns `apex.`, the first request of `addTxtRecord` is the zone
lookup and carries `domain` equal to `apex`; when that lookup succeeds, the
second request is the record creation and its `record` field is exactly
`label`. A trailing dot of the label would not matter. -/
theorem addTxtRecord_host_label (d : DNSProvider) (w : World) (label apex value : String)
    (hlabel : label ≠ "")
    (hz : w.findZone (ToFqdn (label ++ "." ++ apex ++ ".")) = .ok (apex ++ ".")) :
    (∃ req, (addTxtRecord d w (label ++ "." ++ apex ++ ".") value).1.log[w.log.length]? = some req ∧
      req.url = d.config.BaseURL ++ "/v1/json/dns.zone_domain_info" ∧
      req.parameters.member "domain" = some (.str apex)) ∧
    ((newRequest w (d.config.BaseURL ++ "/v1/json/dns.zone_domain_info")
        (Marshal zoneDomain.info
          ({ APIKey := d.config.AuthToken, Domain := apex } : zoneDomain))
        zoneDomain.info ({} : zoneDomain)).2.2 = none →
      ∃ req, (addTxtRecord d w (label ++ "." ++ apex ++ ".") value).1.log[w.log.length + 1]?
          = some req ∧
        req.url = d.config.BaseURL ++ "/v1/json/dns.zone_record_create" ∧
        req.parameters.member "record" = some (.str label)) := by
  have hU : UnFqdn (apex ++ ".") = apex := UnFqdn_append_dot apex
  have hH : UnFqdn (TrimSuffix (UnFqdn (label ++ "." ++ apex ++ ".")) (UnFqdn (apex ++ ".")))
      = label := by
    rw [hU, UnFqdn_append_dot, TrimSuffix_append, UnFqdn_append_dot]
  constructor
  · obtain ⟨rest, hr⟩ := addTxtRecord_log_zone d w _ value _ hz
    rw [hU] at hr
    exact ⟨_, by rw [hr]; exact getElem?_append_cons _ _ _, rfl,
      Marshal_zoneDomain_member_domain _ _⟩
  · intro h1
    rcases hq : newRequest w (d.config.BaseURL ++ "/v1/json/dns.zone_domain_info")
        (Marshal zoneDomain.info
          ({ APIKey := d.config.AuthToken, Domain := apex } : zoneDomain))
        zoneDomain.info ({} : zoneDomain) with ⟨w1, zone, e⟩
    rw [hq] at h1
    simp only at h1
    subst h1
    rw [← hU] at hq
    obtain ⟨rest, hr⟩ := addTxtRecord_log_create d w w1 _ value _ zone hz hq
    rw [hH] at hr
    exact ⟨_, by rw [hr]; exact getElem?_append_cons_cons _ _ _ _, rfl,
      Marshal_record_member_record _ _ _ _ _ hlabel⟩

/-- C8 at `_acme-challenge.example.com.` with zone `example.com.`: the lookup
carries `example.com`, the record is `_acme-challenge`. -/
theorem addTxtRecord_host_label_witness :
    (∃ req, (addTxtRecord (testProvider 300) testWorld
        ("_acme-challenge" ++ "." ++ "example.com" ++ ".")
        "w6uP8Tcg6K2QR905Rms8iXTlksL6OD1KOWBxTK7wxPI").1.log[testWorld.log.length]? = some req ∧
      req.url = (testProvider 300).config.BaseURL ++ "/v1/json/dns.zone_domain_info" ∧
      req.parameters.member "domain" = some (.str "example.com")) ∧
    (∃ req, (addTxtRecord (testProvider 300) testWorld
        ("_acme-challenge" ++ "." ++ "example.com" ++ ".")
        "w6uP8Tcg6K2QR905Rms8iXTlksL6OD1KOWBxTK7wxPI").1.log[testWorld.log.length + 1]?
          = some req ∧
        req.url = (testProvider 300).config.BaseURL ++ "/v1/json/dns.zone_record_create" ∧
        req.parameters.member "record" = some (.str "_acme-challenge")) :=
  ⟨(addTxtRecord_host_label (testProvider 300) testWorld "_acme-challenge" "example.com"
      "w6uP8Tcg6K2QR905Rms8iXTlksL6OD1KOWBxTK7wxPI" (by decide) rfl).1,
   (addTxtRecord_host_label (testProvider 300) testWorld "_acme-challenge" "example.com"
      "w6uP8Tcg6K2QR905Rms8iXTlksL6OD1KOWBxTK7wxPI" (by decide) rfl).2 (by decide)⟩

theorem NewDNSProviderConfig_ok (config : Config) (d : DNSProvider)
    (h : NewDNSProviderConfig (some config) = .ok d) :
    d.config.AuthToken = config.AuthToken ∧ config.AuthToken ≠ "" ∧ d.config.TTL = config.TTL ∧
      config.TTL ∈ validTTLs ∧ d.recordIDs = [] := by
  have hT : (if config.BaseURL = "" then { config with BaseURL := defaultBaseURL }
      else config).TTL = config.TTL := by split <;> rfl
  have hA : (if config.BaseURL = "" then { config with BaseURL := defaultBaseURL }
      else config).AuthToken = config.AuthToken := by split <;> rfl
  by_cases htok : config.AuthToken = ""
  · simp [NewDNSProviderConfig, htok] at h
  · by_cases hv : config.TTL ∈ validTTLs
    · simp only [NewDNSProviderConfig, htok, hT, hv, if_true, if_false, Except.ok.injEq] at h
      subst h
      exact ⟨hA, htok, hT, hv, rfl⟩
    · simp [NewDNSProviderConfig, htok, hT, hv] at h

/-- C9 fails on the code: the provider built from the valid configuration with
TTL 0 sends a create request without any `ttl` member. -/
theorem zero_ttl_counterexample :
    NewDNSProviderConfig (some (testConfig 0)) = .ok (testProvider 0) ∧
    (Present (testProvider 0) testWorld "example.com" "" "foobar").err = none ∧
    (Present (testProvider 0) testWorld "example.com" "" "foobar").world.log[1]?
      = some ⟨"http://127.0.0.1/v1/json/dns.zone_record_create",
          .obj [("zone_id", .str "123456"), ("type", .str "TXT"), ("record", .str "_acme-challenge"),
            ("address", .str "w6uP8Tcg6K2QR905Rms8iXTlksL6OD1KOWBxTK7wxPI"),
            ("api_key", .str "asdf1234")]⟩ ∧
    (JSON.obj [("zone_id", .str "123456"), ("type", .str "TXT"), ("record", .str "_acme-challenge"),
            ("address", .str "w6uP8Tcg6K2QR905Rms8iXTlksL6OD1KOWBxTK7wxPI"),
            ("api_key", .str "asdf1234")]).member "ttl" = none := by
  refine ⟨rfl, by decide, rfl, rfl⟩

/-- C9, amended: for a provider built by `NewDNSProviderConfig`, when zone
discovery and the zone lookup succeed and the zone identifier, the host label
and the challenge value are non-empty, the second request of `Present` is the
record creation with exactly the members `zone_id`, `type` = `TXT`, `record`,
`address`, then `ttl` = the configured TTL unless that TTL is 0 (then there is
no `ttl` member), then `api_key` = the configured auth token. -/
theorem Present_create_parameters (config : Config) (d : DNSProvider) (w w1 : World)
    (domain token keyAuth authZone : String) (zone : zoneDomain)
    (hd : NewDNSProviderConfig (some config) = .ok d)
    (hz : w.findZone (ToFqdn ("_acme-challenge." ++ domain ++ ".")) = .ok authZone)
    (h1 : newRequest w (d.config.BaseURL ++ "/v1/json/dns.zone_domain_info")
        (Marshal zoneDomain.info
          ({ APIKey := d.config.AuthToken, Domain := UnFqdn authZone } : zoneDomain))
        zoneDomain.info ({} : zoneDomain) = (w1, zone, none))
    (hzone : zone.ID ≠ "")
    (hhost : UnFqdn (TrimSuffix (UnFqdn ("_acme-challenge." ++ domain ++ ".")) (UnFqdn authZone))
      ≠ "")
    (hvalue : w.digest keyAuth ≠ "") :
    (Present d w domain token keyAuth).world.log[w.log.length + 1]?
      = some ⟨d.config.BaseURL ++ "/v1/json/dns.zone_record_create",
          JSON.obj ([("zone_id", .str zone.ID), ("type", .str "TXT"),
            ("record", .str (UnFqdn (TrimSuffix (UnFqdn ("_acme-challenge." ++ domain ++ "."))
              (UnFqdn authZone)))),
            ("address", .str (w.digest keyAuth))]
            ++ (if config.TTL = 0 then [] else [("ttl", .num (toString config.TTL))])
            ++ [("api_key", .str config.AuthToken)])⟩ := by
  obtain ⟨hA, hne, hT, -, -⟩ := NewDNSProviderConfig_ok config d hd
  obtain ⟨rest, hr⟩ := addTxtRecord_log_create d w w1 ("_acme-challenge." ++ domain ++ ".")
    (w.digest keyAuth) authZone zone hz h1
  rw [Present_world, hr, getElem?_append_cons_cons,
    Marshal_record_create _ _ _ _ _ hzone hhost hvalue (by rw [hA]; exact hne), hA, hT]

/-- C9, amended, at the scenario of `TestDNSProvider_Present` (TTL 300). -/
theorem Present_create_parameters_witness :
    (Present (testProvider 300) testWorld "example.com" "" "foobar").world.log[1]?
      = some ⟨"http://127.0.0.1/v1/json/dns.zone_record_create",
          .obj [("zone_id", .str "123456"), ("type", .str "TXT"), ("record", .str "_acme-challenge"),
            ("address", .str "w6uP8Tcg6K2QR905Rms8iXTlksL6OD1KOWBxTK7wxPI"),
            ("ttl", .num "300"), ("api_key", .str "asdf1234")]⟩ :=
  Present_create_parameters (testConfig 300) (testProvider 300) testWorld
    { testWorld with log := [⟨"http://127.0.0.1/v1/json/dns.zone_domain_info",
        .obj [("domain", .str "example.com"), ("api_key", .str "asdf1234")]⟩] }
    "example.com" "" "foobar" "example.com." { ID := "123456", Domain := "example.com" }
    rfl rfl rfl (by decide) (by decide) (by decide)


/-! ## Calls for distinct domains (C10) -/

theorem addTxtRecord_config (d d' : DNSProvider) (w : World) (fqdn value : String)
    (h : d.config = d'.config) :
    addTxtRecord d w fqdn value = addTxtRecord d' w fqdn value := by
  simp only [addTxtRecord, h]

theorem Present_of_ok_snd (d : DNSProvider) (w : World) (domain token keyAuth : String)
    (r : record)
    (h : (addTxtRecord d w ("_acme-challenge." ++ domain ++ ".") (w.digest keyAuth)).2 = .ok r) :
    (Present d w domain token keyAuth).err = none ∧
    (Present d w domain token keyAuth).provider
      = { d with recordIDs := mapSet d.recordIDs ("_acme-challenge." ++ domain ++ ".") r.ID } := by
  have ha : addTxtRecord d w ("_acme-challenge." ++ domain ++ ".") (w.digest keyAuth)
      = ((addTxtRecord d w ("_acme-challenge." ++ domain ++ ".") (w.digest keyAuth)).1, .ok r) :=
    Prod.ext rfl h
  rw [Present_of_ok d w _ domain token keyAuth r ha]
  exact ⟨rfl, rfl⟩

theorem Present_frame (d : DNSProvider) (w : World) (domain token keyAuth other : String)
    (h : other ≠ "_acme-challenge." ++ domain ++ ".") :
    mapGet (Present d w domain token keyAuth).provider.recordIDs other
      = mapGet d.recordIDs other := by
  rcases ha : addTxtRecord d w ("_acme-challenge." ++ domain ++ ".") (w.digest keyAuth)
    with ⟨w', (e | r)⟩
  · rw [Present_of_error d w w' domain token keyAuth e ha]
  · rw [Present_of_ok d w w' domain token keyAuth r ha]
    exact mapGet_mapSet_other _ _ _ _ h

theorem CleanUp_frame (d : DNSProvider) (w : World) (domain token keyAuth other : String)
    (h : other ≠ "_acme-challenge." ++ domain ++ ".") :
    mapGet (CleanUp d w domain token keyAuth).provider.recordIDs other
      = mapGet d.recordIDs other := by
  cases hg : mapGet d.recordIDs ("_acme-challenge." ++ domain ++ ".") with
  | none => rw [CleanUp_of_none d w domain token keyAuth hg]
  | some recordID =>
    rw [CleanUp_of_some d w domain token keyAuth recordID hg]
    split
    · rfl
    · exact mapGet_mapDelete_other _ _ _ h

theorem runPresents_spec (d0 : DNSProvider) (order : List PresentCall) :
    ∀ d : DNSProvider, d.config = d0.config →
      (order.map PresentCall.domain).Nodup →
      (∀ c ∈ order, ∃ r, (addTxtRecord d0 c.world ("_acme-challenge." ++ c.domain ++ ".")
        (c.world.digest c.keyAuth)).2 = .ok r) →
      (runPresents d order).2 = List.replicate order.length none ∧
      (∀ c ∈ order, ∀ r, (addTxtRecord d0 c.world ("_acme-challenge." ++ c.domain ++ ".")
          (c.world.digest c.keyAuth)).2 = .ok r →
        mapGet (runPresents d order).1.recordIDs ("_acme-challenge." ++ c.domain ++ ".")
          = some r.ID) ∧
      (∀ k, (∀ c ∈ order, "_acme-challenge." ++ c.domain ++ "." ≠ k) →
        mapGet (runPresents d order).1.recordIDs k = mapGet d.recordIDs k) ∧
      ((mapKeys d.recordIDs).Nodup → (mapKeys (runPresents d order).1.recordIDs).Nodup) := by
  induction order with
  | nil =>
    intro d _ _ _
    simp [runPresents]
  | cons c cs ih =>
    intro d hcfg hnd hok
    obtain ⟨r, hr⟩ := hok c (List.mem_cons_self _ _)
    have hr' : (addTxtRecord d c.world ("_acme-challenge." ++ c.domain ++ ".")
        (c.world.digest c.keyAuth)).2 = .ok r := by
      rw [addTxtRecord_config d d0 _ _ _ hcfg]; exact hr
    obtain ⟨hE, hP⟩ := Present_of_ok_snd d c.world c.domain c.token c.keyAuth r hr'
    rw [List.map_cons, List.nodup_cons] at hnd
    have hcfg' : (Present d c.world c.domain c.token c.keyAuth).provider.config = d0.config := by
      rw [hP]; exact hcfg
    obtain ⟨i1, i2, i3, i4⟩ := ih (Present d c.world c.domain c.token c.keyAuth).provider hcfg'
      hnd.2 (fun c' hc' => hok c' (List.mem_cons_of_mem _ hc'))
    have hfresh : ∀ c' ∈ cs, "_acme-challenge." ++ c'.domain ++ "."
        ≠ "_acme-challenge." ++ c.domain ++ "." := by
      intro c' hc' heq
      exact hnd.1 (List.mem_map.mpr ⟨c', hc', fqdn_injective _ _ heq⟩)
    have hself : mapGet (Present d c.world c.domain c.token c.keyAuth).provider.recordIDs
        ("_acme-challenge." ++ c.domain ++ ".") = some r.ID := by
      rw [hP]; exact mapGet_mapSet_self _ _ _
    refine ⟨?_, ?_, ?_, ?_⟩
    · simp [runPresents, hE, i1, List.replicate_succ]
    · intro c' hc' r' hr2
      rcases List.mem_cons.mp hc' with rfl | hc'
      · have : r' = r := by
          rw [hr] at hr2
          exact (Except.ok.inj hr2).symm
        subst this
        simp only [runPresents]
        rw [i3 _ hfresh]
        exact hself
      · simp only [runPresents]
        exact i2 c' hc' r' hr2
    · intro k hk
      simp only [runPresents]
      rw [i3 k (fun c' hc' => hk c' (List.mem_cons_of_mem _ hc'))]
      exact Present_frame d c.world c.domain c.token c.keyAuth k
        (Ne.symm (hk c (List.mem_cons_self _ _)))
    · intro hkeys
      simp only [runPresents]
      apply i4
      rw [hP]
      exact mapKeys_mapSet_nodup _ _ _ hkeys

/-- C10: for calls of `Present` on pairwise distinct domains whose provider
calls all succeed, with the table writes taking effect in any order `order`:
every call returns no error; the FQDN of each call is mapped to the identifier
of its own create answer and occurs exactly once among the keys; entries of
other FQDNs are as before. Moreover one `Present` or `CleanUp` never changes
the entry of a different FQDN. -/
theorem concurrent_Present_distinct (d : DNSProvider) (calls order : List PresentCall)
    (hperm : order.Perm calls)
    (hdistinct : (calls.map PresentCall.domain).Nodup)
    (hkeys : (mapKeys d.recordIDs).Nodup)
    (hok : ∀ c ∈ calls, ∃ r, (addTxtRecord d c.world ("_acme-challenge." ++ c.domain ++ ".")
      (c.world.digest c.keyAuth)).2 = .ok r) :
    (runPresents d order).2 = List.replicate calls.length none ∧
    (∀ c ∈ calls, ∀ r, (addTxtRecord d c.world ("_acme-challenge." ++ c.domain ++ ".")
        (c.world.digest c.keyAuth)).2 = .ok r →
      mapGet (runPresents d order).1.recordIDs ("_acme-challenge." ++ c.domain ++ ".")
        = some r.ID ∧
      (mapKeys (runPresents d order).1.recordIDs).count ("_acme-challenge." ++ c.domain ++ ".")
        = 1) ∧
    (∀ k, (∀ c ∈ calls, "_acme-challenge." ++ c.domain ++ "." ≠ k) →
      mapGet (runPresents d order).1.recordIDs k = mapGet d.recordIDs k) ∧
    (∀ (p : DNSProvider) (w : World) (domain token keyAuth other : String),
      other ≠ "_acme-challenge." ++ domain ++ "." →
      mapGet (Present p w domain token keyAuth).provider.recordIDs other = mapGet p.recordIDs other ∧
      mapGet (CleanUp p w domain token keyAuth).provider.recordIDs other
        = mapGet p.recordIDs other) := by
  have hnd : (order.map PresentCall.domain).Nodup :=
    (List.Perm.nodup_iff (List.Perm.map _ hperm)).mpr hdistinct
  obtain ⟨s1, s2, s3, s4⟩ := runPresents_spec d order d rfl hnd
    (fun c hc => hok c (hperm.mem_iff.mp hc))
  refine ⟨by rw [s1, hperm.length_eq], ?_, ?_, ?_⟩
  · intro c hc r hr
    have hg := s2 c (hperm.mem_iff.mpr hc) r hr
    exact ⟨hg, List.count_eq_one_of_mem (s4 hkeys) (mem_mapKeys_of_mapGet _ _ _ hg)⟩
  · intro k hk
    exact s3 k (fun c hc => hk c (hperm.mem_iff.mp hc))
  · intro p w domain token keyAuth other ho
    exact ⟨Present_frame p w domain token keyAuth other ho,
      CleanUp_frame p w domain token keyAuth other ho⟩

/-- C10 at two calls, for `example.com` and `example.org`, committed in the
reverse order. -/
theorem concurrent_Present_distinct_witness :
    (runPresents (testProvider 300) [secondCall, firstCall]).2 = [none, none] ∧
    (mapGet (runPresents (testProvider 300) [secondCall, firstCall]).1.recordIDs
        "_acme-challenge.example.com." = some "abcdef" ∧
      (mapKeys (runPresents (testProvider 300) [secondCall, firstCall]).1.recordIDs).count
        "_acme-challenge.example.com." = 1) ∧
    (mapGet (runPresents (testProvider 300) [secondCall, firstCall]).1.recordIDs
        "_acme-challenge.example.org." = some "ghijkl" ∧
      (mapKeys (runPresents (testProvider 300) [secondCall, firstCall]).1.recordIDs).count
        "_acme-challenge.example.org." = 1) :=
  have hok : ∀ c ∈ [firstCall, secondCall],
      ∃ r, (addTxtRecord (testProvider 300) c.world ("_acme-challenge." ++ c.domain ++ ".")
        (c.world.digest c.keyAuth)).2 = .ok r := by
    intro c hc
    simp only [List.mem_cons, List.mem_singleton, List.not_mem_nil, or_false] at hc
    rcases hc with rfl | rfl
    · exact ⟨_, rfl⟩
    · exact ⟨_, rfl⟩
  have h := concurrent_Present_distinct (testProvider 300) [firstCall, secondCall]
    [secondCall, firstCall] (List.Perm.swap _ _ _) (by decide) (by decide) hok
  ⟨h.1,
   h.2.1 firstCall (by simp)
     { ID := "abcdef", ZoneID := "123456", Typ := "TXT", Record := "_acme-challenge",
       Address := "w6uP8Tcg6K2QR905Rms8iXTlksL6OD1KOWBxTK7wxPI", TTL := 300 } rfl,
   h.2.1 secondCall (by simp) { ID := "ghijkl", ZoneID := "123456" } rfl⟩

end Memset
